import Mathlib

/-!
Verification of the tweet_curator search/filter/listing engine.

This file gives a shallow embedding of the query engine implemented in
`src/server.js` (the current version of the file, whose listing handler is
registered at `app.get('/api/tweets')` around line 1082): the `stem`
function, the `parseSearchQuery` tokenizer/predicate builder, and the
filter-composition, counting, ordering and pagination logic of the listing
endpoint.  SQL fragments composed by the endpoint (`WHERE`, `GROUP BY t.id`,
`HAVING COUNT(DISTINCT tag_filter.name) = n`, `LIMIT ? OFFSET ?`) are
embedded by their SQLite semantics over an explicit in-memory database
value.  String operations are modelled over the character lists of Lean
strings so that every definition evaluates by kernel reduction; JavaScript
`toLowerCase`, SQLite `lower`, and SQL string comparison are modelled
ASCII-wise, which coincides with the source behaviour on ASCII data.
-/

/-- Embedding of `toLowerCase()` / SQLite `lower()`: ASCII-wise lowercasing. -/
def lowerStr (s : String) : String := String.mk (s.toList.map Char.toLower)

/-- Embedding of `String.prototype.endsWith`. -/
def strEndsWith (s suf : String) : Bool := suf.toList.isSuffixOf s.toList

/-- Embedding of `w.slice(0, -n)` (drop the last `n` characters). -/
def dropRightStr (s : String) (n : Nat) : String :=
  String.mk (s.toList.take (s.toList.length - n))

/-- Embedding of `String.prototype.trim` (ASCII whitespace). -/
def trimStr (s : String) : String :=
  String.mk (((s.toList.dropWhile Char.isWhitespace).reverse.dropWhile Char.isWhitespace).reverse)

/-- The irregular-form table of `stem` (src/server.js, `irregulars`). -/
def irregulars : List (String × String) :=
  [("ran", "run"), ("running", "run"), ("runs", "run"),
   ("children", "child"), ("childs", "child"),
   ("men", "man"), ("women", "woman"),
   ("feet", "foot"), ("teeth", "tooth"),
   ("mice", "mouse"), ("geese", "goose"),
   ("was", "be"), ("were", "be"), ("been", "be"), ("being", "be"), ("is", "be"),
   ("are", "be"), ("am", "be"),
   ("had", "have"), ("has", "have"), ("having", "have"),
   ("did", "do"), ("does", "do"), ("doing", "do"),
   ("went", "go"), ("goes", "go"), ("going", "go"), ("gone", "go"),
   ("said", "say"), ("says", "say"), ("saying", "say"),
   ("made", "make"), ("makes", "make"), ("making", "make"),
   ("took", "take"), ("takes", "take"), ("taking", "take"), ("taken", "take"),
   ("came", "come"), ("comes", "come"), ("coming", "come"),
   ("saw", "see"), ("sees", "see"), ("seeing", "see"), ("seen", "see"),
   ("knew", "know"), ("knows", "know"), ("knowing", "know"), ("known", "know"),
   ("thought", "think"), ("thinks", "think"), ("thinking", "think"),
   ("got", "get"), ("gets", "get"), ("getting", "get"), ("gotten", "get"),
   ("gave", "give"), ("gives", "give"), ("giving", "give"), ("given", "give"),
   ("told", "tell"), ("tells", "tell"), ("telling", "tell"),
   ("felt", "feel"), ("feels", "feel"), ("feeling", "feel"),
   ("became", "become"), ("becomes", "become"), ("becoming", "become"),
   ("left", "leave"), ("leaves", "leave"), ("leaving", "leave"),
   ("brought", "bring"), ("brings", "bring"), ("bringing", "bring"),
   ("wrote", "write"), ("writes", "write"), ("writing", "write"), ("written", "write"),
   ("sat", "sit"), ("sits", "sit"), ("sitting", "sit"),
   ("stood", "stand"), ("stands", "stand"), ("standing", "stand"),
   ("lost", "lose"), ("loses", "lose"), ("losing", "lose"),
   ("paid", "pay"), ("pays", "pay"), ("paying", "pay"),
   ("met", "meet"), ("meets", "meet"), ("meeting", "meet"),
   ("set", "set"), ("sets", "set"), ("setting", "set"),
   ("learned", "learn"), ("learns", "learn"), ("learning", "learn"), ("learnt", "learn"),
   ("kept", "keep"), ("keeps", "keep"), ("keeping", "keep"),
   ("built", "build"), ("builds", "build"), ("building", "build"),
   ("sent", "send"), ("sends", "send"), ("sending", "send"),
   ("spent", "spend"), ("spends", "spend"), ("spending", "spend"),
   ("understood", "understand"), ("understands", "understand"),
   ("understanding", "understand"),
   ("began", "begin"), ("begins", "begin"), ("beginning", "begin"), ("begun", "begin"),
   ("held", "hold"), ("holds", "hold"), ("holding", "hold"),
   ("heard", "hear"), ("hears", "hear"), ("hearing", "hear"),
   ("found", "find"), ("finds", "find"), ("finding", "find"),
   ("read", "read"), ("reads", "read"), ("reading", "read"),
   ("meant", "mean"), ("means", "mean"), ("meaning", "mean"),
   ("led", "lead"), ("leads", "lead"), ("leading", "lead"),
   ("put", "put"), ("puts", "put"), ("putting", "put"),
   ("showed", "show"), ("shows", "show"), ("showing", "show"), ("shown", "show"),
   ("moved", "move"), ("moves", "move"), ("moving", "move"),
   ("lived", "live"), ("lives", "live"), ("living", "live"),
   ("believed", "believe"), ("believes", "believe"), ("believing", "believe"),
   ("loved", "love"), ("loves", "love"), ("loving", "love")]

/-- Consonant-doubling undo used after stripping `-ing`/`-ed`
(`if (w.length > 2 && w[w.length-1] === w[w.length-2]) w = w.slice(0,-1)`). -/
def undoubleLast (w : String) : String :=
  match w.toList.reverse with
  | a :: b :: _ => if 2 < w.length ∧ a = b then dropRightStr w 1 else w
  | _ => w

/-- Embedding of `stem` (src/server.js): irregular-form lookup, then ordered
suffix-stripping rules, each guarded by a minimum-length condition. -/
def stem (word : String) : String :=
  if word.length < 3 then lowerStr word else
  let w0 := lowerStr word
  match irregulars.find? (fun pr => pr.1 == w0) with
  | some pr => pr.2
  | none =>
    let w1 :=
      if strEndsWith w0 "ies" ∧ 4 < w0.length then dropRightStr w0 3 ++ "y"
      else if strEndsWith w0 "ied" ∧ 4 < w0.length then dropRightStr w0 3 ++ "y"
      else if strEndsWith w0 "es" ∧ 4 < w0.length then dropRightStr w0 2
      else if strEndsWith w0 "s" ∧ ¬ strEndsWith w0 "ss" ∧ 3 < w0.length then dropRightStr w0 1
      else w0
    if strEndsWith w1 "ing" ∧ 5 < w1.length then undoubleLast (dropRightStr w1 3)
    else if strEndsWith w1 "ed" ∧ 4 < w1.length then undoubleLast (dropRightStr w1 2)
    else if strEndsWith w1 "ness" ∧ 6 < w1.length then dropRightStr w1 4
    else if strEndsWith w1 "ment" ∧ 6 < w1.length then dropRightStr w1 4
    else if strEndsWith w1 "ly" ∧ 4 < w1.length then dropRightStr w1 2
    else if strEndsWith w1 "ful" ∧ 5 < w1.length then dropRightStr w1 3
    else if strEndsWith w1 "less" ∧ 6 < w1.length then dropRightStr w1 4
    else if strEndsWith w1 "tion" ∧ 6 < w1.length then dropRightStr w1 4
    else if strEndsWith w1 "er" ∧ 4 < w1.length then dropRightStr w1 2
    else if strEndsWith w1 "est" ∧ 5 < w1.length then dropRightStr w1 3
    else if strEndsWith w1 "able" ∧ 6 < w1.length then dropRightStr w1 4
    else if strEndsWith w1 "ible" ∧ 6 < w1.length then dropRightStr w1 4
    else w1

/-- The stop-word list of `parseSearchQuery` (src/server.js). -/
def stopWords : List String :=
  ["a", "an", "the", "is", "are", "was", "were", "be", "been",
   "being", "have", "has", "had", "do", "does", "did", "will",
   "would", "could", "should", "may", "might", "must", "shall",
   "can", "to", "of", "in", "for", "on", "with", "at", "by",
   "from", "or", "and", "but", "if", "then", "so", "than",
   "that", "this", "these", "those", "it", "its"]

/-- A search token of `parseSearchQuery`: a quoted phrase or a bare word. -/
inductive SearchToken
  | phrase (value : String)
  | word (value : String)
deriving DecidableEq, Repr

/-- Embedding of the quoted-phrase extraction loop of `parseSearchQuery`
(`/"([^"]+)"/g` over the query, each match replaced by a space in the
remaining string).  The scan walks the characters once; the second argument
holds the content accumulated since an unmatched opening quote (reversed).
A quote with no non-quote character before the next quote does not open a
phrase (the regex requires `[^"]+`), and an unclosed trailing quote leaves
its characters in the remaining string. -/
def scanPhrases : List Char → Option (List Char) → List String × List Char
  | [], none => ([], [])
  | [], some buf => ([], '"' :: buf.reverse)
  | c :: rest, none =>
    if c = '"' then scanPhrases rest (some [])
    else
      let r := scanPhrases rest none
      (r.1, c :: r.2)
  | c :: rest, some buf =>
    if c = '"' then
      if buf.isEmpty then
        let r := scanPhrases rest (some [])
        (r.1, '"' :: r.2)
      else
        let r := scanPhrases rest none
        (String.mk buf.reverse :: r.1, ' ' :: r.2)
    else scanPhrases rest (some (c :: buf))

/-- Split a character list at every character satisfying `p`
(the pieces, possibly empty, between separator characters). -/
def splitChars (p : Char → Bool) : List Char → List (List Char)
  | [] => [[]]
  | c :: rest =>
    match splitChars p rest with
    | [] => [[]]
    | g :: gs => if p c then [] :: g :: gs else (c :: g) :: gs

/-- Embedding of `remaining.split(/\s+/).filter(w => w.length > 0)`. -/
def splitWords (cs : List Char) : List String :=
  ((splitChars Char.isWhitespace cs).map String.mk).filter (fun w => w ≠ "")

/-- The word filter of `parseSearchQuery`: drop words shorter than 2
characters and stop words (checked on the lowercased word). -/
def keepWord (w : String) : Bool :=
  decide (2 ≤ w.length) && !(stopWords.contains (lowerStr w))

/-- Embedding of the token-collection phase of `parseSearchQuery`: quoted
phrases first (in order of appearance), then the surviving bare words. -/
def tokenize (query : String) : List SearchToken :=
  let scanned := scanPhrases query.toList none
  scanned.1.map SearchToken.phrase
    ++ ((splitWords scanned.2).filter keepWord).map SearchToken.word

/-- One SQL text clause produced by `parseSearchQuery`:
`contains p` embeds `lower(t.full_text) LIKE ?` with parameter `%p%`, and
`containsEither p q` embeds
`(lower(t.full_text) LIKE ? OR lower(t.full_text) LIKE ?)` with parameters
`%p%`, `%q%`.  The stored strings are the inner substrings, already
lowercased by the builder. -/
inductive SqlLikeClause
  | contains (pat : String)
  | containsEither (pat1 pat2 : String)
deriving DecidableEq, Repr

/-- The parameters a clause pushes, in the order the source pushes them. -/
def clauseParams : SqlLikeClause → List String
  | .contains p => [p]
  | .containsEither p q => [p, q]

/-- The clause built for one token (src/server.js, the `phrases.forEach`
of `parseSearchQuery`): a phrase yields one containment clause; a word
yields word-OR-stem when the stem differs and has length at least 3,
otherwise the single word clause. -/
def tokenClause : SearchToken → SqlLikeClause
  | .phrase v => .contains (lowerStr v)
  | .word v =>
    let word := lowerStr v
    let stemmed := stem word
    if word ≠ stemmed ∧ 3 ≤ stemmed.length then .containsEither word stemmed
    else .contains word

/-- Embedding of `parseSearchQuery`: the clause list and the flat parameter
list accumulated by the token loop. -/
def parseSearchQuery (query : String) : List SqlLikeClause × List String :=
  (tokenize query).foldl
    (fun acc token =>
      (acc.1 ++ [tokenClause token], acc.2 ++ clauseParams (tokenClause token)))
    ([], [])

/-- Substring test on character lists. -/
def containsSub (pat : List Char) : List Char → Bool
  | [] => pat.isEmpty
  | c :: rest => pat.isPrefixOf (c :: rest) || containsSub pat rest

/-- Semantics of `LIKE '%pat%'` against an already-lowercased text: substring
containment.  (`%`/`_` wildcards inside a search word are not given their
LIKE meaning; no claim involves them.) -/
def likeContains (pat text : String) : Bool := containsSub pat.toList text.toList

/-- Semantics of one clause against a tweet's `full_text`. -/
def clauseMatches (c : SqlLikeClause) (fullText : String) : Bool :=
  match c with
  | .contains p => likeContains p (lowerStr fullText)
  | .containsEither p q =>
    likeContains p (lowerStr fullText) || likeContains q (lowerStr fullText)

/-- Semantics of the free-text filter in the listing endpoint: skipped for an
empty `search` (`if (search)`), otherwise the conjunction of all clauses
(`searchConditions.conditions.join(' AND ')`; an empty clause list pushes no
condition, hence no restriction). -/
def searchPasses (search : String) (fullText : String) : Bool :=
  if search = "" then true
  else ((parseSearchQuery search).1).all (fun c => clauseMatches c fullText)

/-- One row of the `tweets` table, restricted to the columns the listing
engine reads.  `ai_quality_score` (a REAL used only as a sort key) is
modelled as an integer; no claim concerns its values. -/
structure Tweet where
  id : String
  full_text : String
  tweet_type : String
  length_category : String
  swipe_status : Option String
  is_reviewed : Bool
  in_reply_to_tweet_id : Option String
  quoted_tweet_id : Option String
  created_at : Int
  favorite_count : Int
  retweet_count : Int
  char_count : Int
  ai_quality_score : Int
deriving DecidableEq, Repr

/-- The relational store seen by the listing endpoint: the `tweets` table and
the `tweet_tags ⋈ tags` association resolved to `(tweet_id, tag name)`
pairs. -/
structure CuratorDb where
  tweets : List Tweet
  taggings : List (String × String)
deriving DecidableEq, Repr

/-- The recognized query parameters of `GET /api/tweets`, all strings as they
arrive in `req.query`. -/
structure ListParams where
  page : String
  limit : String
  search : String
  type : String
  length : String
  swipe : String
  tag : String
  reviewed : String
  excludeRetweets : String
  excludeReplies : String
  excludeThreads : String
  sort : String
  order : String
deriving DecidableEq, Repr

/-- The destructuring defaults of the handler. -/
def defaultListParams : ListParams :=
  { page := "1", limit := "50", search := "", type := "", length := "",
    swipe := "", tag := "", reviewed := "", excludeRetweets := "true",
    excludeReplies := "true", excludeThreads := "false",
    sort := "created_at", order := "desc" }

/-- Numeric value of a decimal digit list. -/
def digitsVal (ds : List Char) : Nat :=
  ds.foldl (fun acc c => acc * 10 + (c.toNat - 48)) 0

/-- Hexadecimal digit test. -/
def isHexDigit (c : Char) : Bool :=
  c.isDigit || ('a' ≤ c.toLower && c.toLower ≤ 'f')

/-- Numeric value of a hexadecimal digit list. -/
def hexVal (ds : List Char) : Nat :=
  ds.foldl
    (fun acc c => acc * 16 + (if c.isDigit then c.toNat - 48 else c.toLower.toNat - 87)) 0

/-- Embedding of JavaScript `parseInt(s)` (radix unset): skip leading
whitespace, optional sign, `0x` hex prefix, maximal digit prefix, `none`
for NaN. -/
def parseIntJS (s : String) : Option Int :=
  let cs := s.toList.dropWhile Char.isWhitespace
  let signed : Int × List Char :=
    match cs with
    | '-' :: r => (-1, r)
    | '+' :: r => (1, r)
    | _ => (1, cs)
  match signed.2 with
  | '0' :: c :: r =>
    if c = 'x' ∨ c = 'X' then
      let hs := r.takeWhile isHexDigit
      if hs.isEmpty then none else some (signed.1 * hexVal hs)
    else some (signed.1 * digitsVal (('0' :: c :: r).takeWhile Char.isDigit))
  | rest =>
    let ds := rest.takeWhile Char.isDigit
    if ds.isEmpty then none else some (signed.1 * digitsVal ds)

/-- Embedding of `tag.split(',').filter(t => t.trim())`: the comma-separated
pieces of the `tag` parameter whose trimmed form is nonempty (the untrimmed
piece is kept, as in the source). -/
def tagList (tag : String) : List String :=
  ((splitChars (fun c => c = ',') tag.toList).map String.mk).filter
    (fun s => trimStr s ≠ "")

/-- `LEFT JOIN tweets thread_parent ON t.in_reply_to_tweet_id =
thread_parent.id` found a row, i.e. `thread_parent.id IS NULL` is false. -/
def parentExists (db : CuratorDb) (t : Tweet) : Bool :=
  db.tweets.any (fun par => some par.id == t.in_reply_to_tweet_id)

/-- `EXISTS (SELECT 1 FROM tweets child WHERE child.in_reply_to_tweet_id =
t.id)` — the `type=thread` pseudo-filter. -/
def hasChildReply (db : CuratorDb) (t : Tweet) : Bool :=
  db.tweets.any (fun child => child.in_reply_to_tweet_id == some t.id)

/-- The structured (non-search) row-level `WHERE` conditions of the listing
endpoint, in source order: type, length, swipe, reviewed, and the three
exclusion toggles. -/
def structuredOk (db : CuratorDb) (p : ListParams) (t : Tweet) : Bool :=
  (if p.type = "" then true
   else if p.type = "thread" then hasChildReply db t
   else t.tweet_type == p.type) &&
  (if p.length = "" then true else t.length_category == p.length) &&
  (if p.swipe = "" then true
   else if p.swipe = "unreviewed" then t.swipe_status == none
   else t.swipe_status == some p.swipe) &&
  (if p.reviewed = "true" then t.is_reviewed
   else if p.reviewed = "false" then !t.is_reviewed
   else true) &&
  (if p.excludeRetweets = "true" then t.tweet_type != "retweet" else true) &&
  (if p.excludeReplies = "true" then t.tweet_type != "reply" else true) &&
  (if p.excludeThreads = "true"
   then (t.tweet_type != "thread" || t.in_reply_to_tweet_id == none)
   else true)

/-- The row-level `WHERE` conditions of the listing endpoint, in source
order: unconditional thread-continuation hiding, free-text search, then the
structured filters. -/
def whereOk (db : CuratorDb) (p : ListParams) (t : Tweet) : Bool :=
  (t.tweet_type != "thread" || !parentExists db t) &&
  (searchPasses p.search t.full_text && structuredOk db p t)

/-- `COUNT(DISTINCT tag_filter.name)` for the group of tweet `t` under the
tag inner join restricted to the requested names. -/
def matchedTagCount (db : CuratorDb) (tags : List String) (t : Tweet) : Nat :=
  (((db.taggings.filter (fun a => a.1 == t.id && tags.contains a.2)).map
      Prod.snd).dedup).length

/-- The tag-filter stage: with no requested tags it imposes nothing;
otherwise the inner join plus
`HAVING COUNT(DISTINCT tag_filter.name) = tags.length` keeps exactly the
groups whose distinct matched-name count equals the requested list length. -/
def tagOk (db : CuratorDb) (p : ListParams) (t : Tweet) : Bool :=
  if (tagList p.tag).isEmpty then true
  else matchedTagCount db (tagList p.tag) t == (tagList p.tag).length

/-- A tweet survives the composed filter (row conditions plus tag stage). -/
def rowPasses (db : CuratorDb) (p : ListParams) (t : Tweet) : Bool :=
  whereOk db p t && tagOk db p t

/-- The distinct tweets satisfying the composed filter, in table order
(the page query before `ORDER BY`/`LIMIT`; one row per tweet because of
`GROUP BY t.id`). -/
def filteredTweets (db : CuratorDb) (p : ListParams) : List Tweet :=
  db.tweets.filter (rowPasses db p)

/-- Embedding of the count query: with a multi-tag `HAVING` clause it counts
the surviving groups of `SELECT t.id ... GROUP BY t.id HAVING ...`;
otherwise it is `COUNT(DISTINCT t.id)` under the row-level `WHERE`. -/
def countTotal (db : CuratorDb) (p : ListParams) : Nat :=
  if (tagList p.tag).isEmpty then
    (((db.tweets.filter (fun t => whereOk db p t)).map Tweet.id).dedup).length
  else
    ((db.tweets.filter (fun t => whereOk db p t)).filter
      (fun t => matchedTagCount db (tagList p.tag) t == (tagList p.tag).length)).length

/-- The sort-column allow-list of the endpoint. -/
def validSorts : List String :=
  ["created_at", "favorite_count", "retweet_count", "char_count", "ai_quality_score"]

/-- The sort key for a validated column name. -/
def sortKeyOf (col : String) (t : Tweet) : Int :=
  if col = "favorite_count" then t.favorite_count
  else if col = "retweet_count" then t.retweet_count
  else if col = "char_count" then t.char_count
  else if col = "ai_quality_score" then t.ai_quality_score
  else t.created_at

/-- Insertion into a key-sorted list (stable). -/
def insertByKey (key : Tweet → Int) (x : Tweet) : List Tweet → List Tweet
  | [] => [x]
  | y :: ys => if key x ≤ key y then x :: y :: ys else y :: insertByKey key x ys

/-- Stable sort by an integer key, ascending. -/
def sortByKey (key : Tweet → Int) (l : List Tweet) : List Tweet :=
  l.foldr (insertByKey key) []

/-- `ORDER BY t.<col> <dir>`: column from the allow-list with fallback to
`created_at`; only (case-insensitive) `asc` is honored, anything else sorts
descending (modelled by negating the key). -/
def orderedTweets (db : CuratorDb) (p : ListParams) : List Tweet :=
  let col := if validSorts.contains p.sort then p.sort else "created_at"
  let key :=
    if lowerStr p.order = "asc" then sortKeyOf col
    else fun t => -(sortKeyOf col t)
  sortByKey key (filteredTweets db p)

/-- SQLite `LIMIT lim OFFSET off` with integer bindings: a negative offset
behaves as 0, a negative limit imposes no limit. -/
def applyLimitOffset (rows : List Tweet) (lim off : Int) : List Tweet :=
  let afterOff := if 0 < off then rows.drop off.toNat else rows
  if 0 ≤ lim then afterOff.take lim.toNat else afterOff

/-- `Math.ceil(total / limit)` of the response: exact ceiling for a positive
limit, a non-positive integer for a negative limit, and `none` for the
non-finite results (`limit = 0` gives Infinity or NaN, serialized as
`null`). -/
def totalPagesJS (total : Nat) (lim : Int) : Option Int :=
  if 0 < lim then some ((total + lim.toNat - 1) / lim.toNat : Nat)
  else if lim < 0 then some (-((total / (-lim).toNat : Nat) : Int))
  else none

/-- The listing response: rows of the requested page plus pagination
metadata.  Per-row tag/quoted-entry decoration is length-preserving and not
modelled (no claim concerns it). -/
structure ListResponse where
  tweets : List Tweet
  page : Int
  limit : Int
  total : Nat
  totalPages : Option Int
deriving DecidableEq, Repr

/-- Embedding of the listing endpoint.  `offset = (parseInt(page) - 1) *
parseInt(limit)` and the page query's `LIMIT ? OFFSET ?` receive the parsed
numbers; a NaN (unparseable page or limit) is bound as SQL NULL, on which
SQLite's LIMIT/OFFSET raise `datatype mismatch`, surfaced by the handler's
catch as a 500 error. -/
def listTweets (db : CuratorDb) (p : ListParams) : Except String ListResponse :=
  match parseIntJS p.page, parseIntJS p.limit with
  | some pg, some lim =>
    Except.ok
      { tweets := applyLimitOffset (orderedTweets db p) lim ((pg - 1) * lim)
        page := pg
        limit := lim
        total := countTotal db p
        totalPages := totalPagesJS (countTotal db p) lim }
  | _, _ => Except.error "datatype mismatch"

/-- The entry list of a successful listing (empty on error). -/
def listedTweets (db : CuratorDb) (p : ListParams) : List Tweet :=
  match listTweets db p with
  | Except.ok r => r.tweets
  | Except.error _ => []

/-- The query string consisting of `s` wrapped in double quotes. -/
def quoteWrap (s : String) : String := String.mk ('"' :: s.toList ++ ['"'])

/-- Example entry tagged {A, B}. -/
def exTweetAB : Tweet :=
  { id := "ab", full_text := "alpha beta", tweet_type := "text_only",
    length_category := "short", swipe_status := none, is_reviewed := false,
    in_reply_to_tweet_id := none, quoted_tweet_id := none, created_at := 1,
    favorite_count := 0, retweet_count := 0, char_count := 10, ai_quality_score := 0 }

/-- Example entry tagged {A, B, C}. -/
def exTweetABC : Tweet :=
  { id := "abc", full_text := "alpha beta gamma", tweet_type := "text_only",
    length_category := "short", swipe_status := none, is_reviewed := false,
    in_reply_to_tweet_id := none, quoted_tweet_id := none, created_at := 2,
    favorite_count := 0, retweet_count := 0, char_count := 16, ai_quality_score := 0 }

/-- Example store with the two tagged entries. -/
def exTagDb : CuratorDb :=
  { tweets := [exTweetAB, exTweetABC],
    taggings := [("ab", "A"), ("ab", "B"), ("abc", "A"), ("abc", "B"), ("abc", "C")] }

/-- Continuation entry whose stored parent `p1` exists in the store. -/
def exParentTweet : Tweet :=
  { id := "p1", full_text := "thread start", tweet_type := "thread",
    length_category := "short", swipe_status := none, is_reviewed := false,
    in_reply_to_tweet_id := none, quoted_tweet_id := none, created_at := 1,
    favorite_count := 0, retweet_count := 0, char_count := 12, ai_quality_score := 0 }

/-- A thread-continuation entry replying to `p1`. -/
def exChildTweet : Tweet :=
  { id := "c1", full_text := "thread middle", tweet_type := "thread",
    length_category := "short", swipe_status := none, is_reviewed := false,
    in_reply_to_tweet_id := some "p1", quoted_tweet_id := none, created_at := 2,
    favorite_count := 0, retweet_count := 0, char_count := 13, ai_quality_score := 0 }

/-- Store containing the starter and its continuation. -/
def exChainDb : CuratorDb := { tweets := [exParentTweet, exChildTweet], taggings := [] }

/-- A thread-kind entry whose parent-reply id is set but resolves to no
stored entry. -/
def exDanglingTweet : Tweet :=
  { id := "d1", full_text := "orphan continuation", tweet_type := "thread",
    length_category := "short", swipe_status := none, is_reviewed := false,
    in_reply_to_tweet_id := some "gone", quoted_tweet_id := none, created_at := 3,
    favorite_count := 0, retweet_count := 0, char_count := 19, ai_quality_score := 0 }

/-- Store containing only the dangling continuation. -/
def exDanglingDb : CuratorDb := { tweets := [exDanglingTweet], taggings := [] }

/-- A thread-kind entry with no parent-reply id at all (a thread starter). -/
def exStarterTweet : Tweet :=
  { id := "s1", full_text := "starter", tweet_type := "thread",
    length_category := "short", swipe_status := none, is_reviewed := false,
    in_reply_to_tweet_id := none, quoted_tweet_id := none, created_at := 4,
    favorite_count := 0, retweet_count := 0, char_count := 7, ai_quality_score := 0 }

/-- Store containing only the starter. -/
def exStarterDb : CuratorDb := { tweets := [exStarterTweet], taggings := [] }

/-- Three entries for the pagination witness. -/
def exPagTweet1 : Tweet :=
  { id := "g1", full_text := "one", tweet_type := "text_only",
    length_category := "short", swipe_status := none, is_reviewed := false,
    in_reply_to_tweet_id := none, quoted_tweet_id := none, created_at := 3,
    favorite_count := 0, retweet_count := 0, char_count := 3, ai_quality_score := 0 }

def exPagTweet2 : Tweet :=
  { id := "g2", full_text := "two", tweet_type := "text_only",
    length_category := "short", swipe_status := none, is_reviewed := false,
    in_reply_to_tweet_id := none, quoted_tweet_id := none, created_at := 2,
    favorite_count := 0, retweet_count := 0, char_count := 3, ai_quality_score := 0 }

def exPagTweet3 : Tweet :=
  { id := "g3", full_text := "three", tweet_type := "text_only",
    length_category := "short", swipe_status := none, is_reviewed := false,
    in_reply_to_tweet_id := none, quoted_tweet_id := none, created_at := 1,
    favorite_count := 0, retweet_count := 0, char_count := 5, ai_quality_score := 0 }

/-- Store with three plain entries. -/
def exPagDb : CuratorDb :=
  { tweets := [exPagTweet1, exPagTweet2, exPagTweet3], taggings := [] }

/-- Page-size-2 request over the three-entry store. -/
def exPagP : ListParams := { defaultListParams with limit := "2" }

/-- Page-number strings for the pagination witness. -/
def exPagPg : Nat → String := fun i => if i = 0 then "1" else "2"

/-- One entry for the numeric-input counterexample. -/
def exLimTweet : Tweet :=
  { id := "n1", full_text := "numeric", tweet_type := "text_only",
    length_category := "short", swipe_status := none, is_reviewed := false,
    in_reply_to_tweet_id := none, quoted_tweet_id := none, created_at := 1,
    favorite_count := 0, retweet_count := 0, char_count := 7, ai_quality_score := 0 }

/-- One-entry store for the numeric-input counterexample. -/
def exLimDb : CuratorDb := { tweets := [exLimTweet], taggings := [] }

theorem searchPasses_empty (text : String) : searchPasses "" text = true := rfl

theorem parseSearchQuery_foldl_aux (ts : List SearchToken)
    (cs : List SqlLikeClause) (ps : List String) :
    ts.foldl
      (fun acc token =>
        (acc.1 ++ [tokenClause token], acc.2 ++ clauseParams (tokenClause token)))
      (cs, ps)
      = (cs ++ ts.map tokenClause,
         ps ++ ((ts.map tokenClause).map clauseParams).flatten) := by
  induction ts generalizing cs ps with
  | nil => simp
  | cons t ts ih => simp [List.foldl_cons, ih]

theorem parseSearchQuery_eq (q : String) :
    parseSearchQuery q
      = ((tokenize q).map tokenClause,
         (((tokenize q).map tokenClause).map clauseParams).flatten) := by
  simpa [parseSearchQuery] using
    parseSearchQuery_foldl_aux (tokenize q) [] []

theorem scanPhrases_no_quote (l : List Char) (h : ∀ c ∈ l, c ≠ '"') :
    scanPhrases l none = ([], l) := by
  induction l with
  | nil => rfl
  | cons c rest ih =>
    have hc : c ≠ '"' := h c (by simp)
    have hrest : ∀ c ∈ rest, c ≠ '"' := fun x hx => h x (by simp [hx])
    simp [scanPhrases, hc, ih hrest]

theorem scanPhrases_some_fst_nil (l : List Char) :
    ∀ buf, (scanPhrases l (some buf)).1 = [] →
      (scanPhrases l (some buf)).2 = '"' :: buf.reverse ++ l := by
  induction l with
  | nil => intro buf _; simp [scanPhrases]
  | cons c rest ih =>
    intro buf hnil
    by_cases hc : c = '"'
    · subst hc
      rcases buf with _ | ⟨b, bs⟩
      · have h' : (scanPhrases rest (some [])).1 = [] := by
          simpa [scanPhrases] using hnil
        have h2 := ih [] h'
        simp only [List.reverse_nil, List.nil_append] at h2
        simpa [scanPhrases] using h2
      · exfalso
        simp [scanPhrases] at hnil
    · have h' : (scanPhrases rest (some (c :: buf))).1 = [] := by
        simpa [scanPhrases, hc] using hnil
      have h2 := ih (c :: buf) h'
      simp only [List.reverse_cons] at h2
      simpa [scanPhrases, hc, List.append_assoc] using h2

theorem scanPhrases_none_fst_nil (l : List Char)
    (h : (scanPhrases l none).1 = []) : (scanPhrases l none).2 = l := by
  induction l with
  | nil => rfl
  | cons c rest ih =>
    by_cases hc : c = '"'
    · subst hc
      have h' : (scanPhrases rest (some [])).1 = [] := by
        simpa [scanPhrases] using h
      have h2 := scanPhrases_some_fst_nil rest [] h'
      simpa [scanPhrases] using h2
    · have h' : (scanPhrases rest none).1 = [] := by
        simpa [scanPhrases, hc] using h
      simpa [scanPhrases, hc] using ih h'

theorem scanPhrases_quoted (s : List Char) :
    ∀ (buf r : List Char), (∀ c ∈ s, c ≠ '"') → buf.reverse ++ s ≠ [] →
      scanPhrases (s ++ '"' :: r) (some buf)
        = (String.mk (buf.reverse ++ s) :: (scanPhrases r none).1,
           ' ' :: (scanPhrases r none).2) := by
  induction s with
  | nil =>
    intro buf r _ hne
    have hbuf : ¬ buf.isEmpty := by
      simpa [List.isEmpty_iff] using fun h => hne (by simp [h])
    simp [scanPhrases, hbuf]
  | cons c s ih =>
    intro buf r hs hne
    have hc : c ≠ '"' := hs c (by simp)
    have hs' : ∀ x ∈ s, x ≠ '"' := fun x hx => hs x (by simp [hx])
    have hne' : (c :: buf).reverse ++ s ≠ [] := by simp
    have hrec := ih (c :: buf) r hs' hne'
    have hstep : scanPhrases (c :: (s ++ '"' :: r)) (some buf)
        = scanPhrases (s ++ '"' :: r) (some (c :: buf)) := by
      simp [scanPhrases, hc]
    rw [List.cons_append, hstep, hrec]
    simp [List.append_assoc]

theorem splitChars_no_sep (p : Char → Bool) (l : List Char)
    (h : ∀ c ∈ l, p c = false) : splitChars p l = [l] := by
  induction l with
  | nil => rfl
  | cons c rest ih =>
    have hc : p c = false := h c (by simp)
    have hrest : ∀ c ∈ rest, p c = false := fun x hx => h x (by simp [hx])
    simp [splitChars, ih hrest, hc]

theorem splitWords_single (l : List Char) (hne : l ≠ [])
    (h : ∀ c ∈ l, c.isWhitespace = false) : splitWords l = [String.mk l] := by
  have hmk : String.mk l ≠ "" := by
    intro hcon
    exact hne (by simpa using congrArg String.toList hcon)
  simp [splitWords, splitChars_no_sep _ _ h, hmk]

theorem whereOk_factor_search (db : CuratorDb) (p : ListParams) (t : Tweet) :
    whereOk db p t
      = (searchPasses p.search t.full_text
          && whereOk db { p with search := "" } t) := by
  show _ = (searchPasses p.search t.full_text
      && ((t.tweet_type != "thread" || !parentExists db t)
            && (searchPasses "" t.full_text && structuredOk db p t)))
  rw [searchPasses_empty, Bool.true_and, whereOk, Bool.and_left_comm]

theorem rowPasses_factor_search (db : CuratorDb) (p : ListParams) (t : Tweet) :
    rowPasses db p t
      = (searchPasses p.search t.full_text
          && rowPasses db { p with search := "" } t) := by
  show _ = (searchPasses p.search t.full_text
      && (whereOk db { p with search := "" } t && tagOk db p t))
  rw [rowPasses, whereOk_factor_search, Bool.and_assoc]

theorem searchPasses_of_no_clauses (q : String)
    (h : (parseSearchQuery q).1 = []) (text : String) :
    searchPasses q text = true := by
  by_cases hq : q = ""
  · subst hq; rfl
  · simp [searchPasses, hq, h]

theorem filteredTweets_search_noop (db : CuratorDb) (p : ListParams) (q : String)
    (hq : ∀ text, searchPasses q text = true) :
    filteredTweets db { p with search := q } = filteredTweets db { p with search := "" } := by
  apply List.filter_congr
  intro t _
  have h1 := rowPasses_factor_search db { p with search := q } t
  rw [hq] at h1
  rw [Bool.true_and] at h1
  exact h1

theorem countTotal_search_noop (db : CuratorDb) (p : ListParams) (q : String)
    (hq : ∀ text, searchPasses q text = true) :
    countTotal db { p with search := q } = countTotal db { p with search := "" } := by
  have hw : ∀ t, whereOk db { p with search := q } t
      = whereOk db { p with search := "" } t := by
    intro t
    have h1 := whereOk_factor_search db { p with search := q } t
    rw [hq] at h1
    rw [Bool.true_and] at h1
    exact h1
  show (if (tagList p.tag).isEmpty then _ else _) = _
  rw [countTotal]
  congr 1 <;> rw [List.filter_congr (fun t _ => hw t)]

theorem orderedTweets_search_noop (db : CuratorDb) (p : ListParams) (q : String)
    (hq : ∀ text, searchPasses q text = true) :
    orderedTweets db { p with search := q } = orderedTweets db { p with search := "" } := by
  show sortByKey _ (filteredTweets db { p with search := q }) = _
  rw [filteredTweets_search_noop db p q hq]
  rfl

theorem listTweets_search_noop (db : CuratorDb) (p : ListParams) (q : String)
    (hq : ∀ text, searchPasses q text = true) :
    listTweets db { p with search := q } = listTweets db { p with search := "" } := by
  simp only [listTweets, orderedTweets_search_noop db p q hq,
    countTotal_search_noop db p q hq]

theorem contains_true_iff_mem {α : Type} [BEq α] [LawfulBEq α] (l : List α) (a : α) :
    l.contains a = true ↔ a ∈ l := by
  simp [List.contains_iff_exists_mem_beq]

theorem matchedTagCount_eq_distinct (db : CuratorDb) (tags : List String) (t : Tweet) :
    matchedTagCount db tags t
      = (tags.dedup.filter (fun n => db.taggings.contains (t.id, n))).length := by
  apply List.Perm.length_eq
  apply (List.perm_ext_iff_of_nodup (List.nodup_dedup _) ((List.nodup_dedup _).filter _)).mpr
  intro a
  simp only [List.mem_dedup, List.mem_map, List.mem_filter, Bool.and_eq_true, beq_iff_eq,
    contains_true_iff_mem]
  constructor
  · rintro ⟨⟨x, y⟩, ⟨hmem, hid, htag⟩, hsnd⟩
    simp only at hid hsnd htag
    subst hid hsnd
    exact ⟨htag, hmem⟩
  · rintro ⟨ha, hmem⟩
    exact ⟨(t.id, a), ⟨hmem, rfl, ha⟩, rfl⟩

theorem tagOk_of_multi (db : CuratorDb) (p : ListParams) (t : Tweet)
    (h : ¬ (tagList p.tag).isEmpty = true) :
    tagOk db p t
      = (matchedTagCount db (tagList p.tag) t == (tagList p.tag).length) := by
  simp [tagOk, h]

theorem countTotal_eq_length_filtered (db : CuratorDb) (p : ListParams)
    (hids : (db.tweets.map Tweet.id).Nodup) :
    countTotal db p = (filteredTweets db p).length := by
  by_cases htag : (tagList p.tag).isEmpty
  · have hrow : ∀ t ∈ db.tweets, rowPasses db p t = whereOk db p t := by
      intro t _
      simp [rowPasses, tagOk, htag]
    have hsub : ((db.tweets.filter (fun t => whereOk db p t)).map Tweet.id).Nodup :=
      List.Nodup.sublist ((List.filter_sublist db.tweets).map Tweet.id) hids
    rw [countTotal, if_pos htag, List.dedup_eq_self.mpr hsub, List.length_map,
      filteredTweets, List.filter_congr hrow]
  · have hrow : ∀ t ∈ db.tweets, rowPasses db p t
        = (whereOk db p t
            && (matchedTagCount db (tagList p.tag) t == (tagList p.tag).length)) := by
      intro t _
      simp [rowPasses, tagOk, htag]
    rw [countTotal, if_neg htag, List.filter_filter, filteredTweets, List.filter_congr hrow]
    apply congrArg
    apply List.filter_congr
    intro t _
    rw [Bool.and_comm]

theorem length_insertByKey (key : Tweet → Int) (x : Tweet) (l : List Tweet) :
    (insertByKey key x l).length = l.length + 1 := by
  induction l with
  | nil => rfl
  | cons y ys ih =>
    by_cases h : key x ≤ key y
    · simp [insertByKey, h]
    · simp [insertByKey, h, ih]

theorem length_sortByKey (key : Tweet → Int) (l : List Tweet) :
    (sortByKey key l).length = l.length := by
  induction l with
  | nil => rfl
  | cons y ys ih =>
    simp [sortByKey, List.foldr_cons] at ih ⊢
    rw [length_insertByKey, ih]

theorem length_orderedTweets (db : CuratorDb) (p : ListParams) :
    (orderedTweets db p).length = (filteredTweets db p).length := by
  rw [orderedTweets]
  exact length_sortByKey _ _

theorem flatten_chunks (K : Nat) (_hK : 0 < K) :
    ∀ (n : Nat) (l : List Tweet), l.length ≤ n * K →
      ((List.range n).map (fun i => (l.drop (i * K)).take K)).flatten = l := by
  intro n
  induction n with
  | zero =>
    intro l hl
    have : l = [] := List.length_eq_zero.mp (Nat.le_zero.mp (by simpa using hl))
    simp [this]
  | succ n ih =>
    intro l hl
    rw [List.range_succ_eq_map, List.map_cons, List.map_map, List.flatten_cons]
    have hcomp : ((fun i => (l.drop (i * K)).take K) ∘ Nat.succ)
        = fun i => ((l.drop K).drop (i * K)).take K := by
      funext i
      simp only [Function.comp_apply, List.drop_drop]
      rw [Nat.succ_mul, Nat.add_comm (i * K) K]
    rw [hcomp]
    have hlen : (l.drop K).length ≤ n * K := by
      rw [List.length_drop]
      have : (n + 1) * K = n * K + K := by ring
      omega
    rw [ih (l.drop K) hlen]
    simp

theorem le_ceil_mul (len K : Nat) (hK : 0 < K) :
    len ≤ ((len + K - 1) / K) * K := by
  rw [Nat.mul_comm]
  have h1 := Nat.div_add_mod (len + K - 1) K
  have h2 := Nat.mod_lt (len + K - 1) hK
  set X := K * ((len + K - 1) / K) with hX
  set r := (len + K - 1) % K with hr
  omega

theorem applyLimitOffset_nat (rows : List Tweet) (L : Int) (hpos : 0 < L) (o : Nat) :
    applyLimitOffset rows L (o : Int) = (rows.drop o).take L.toNat := by
  rw [applyLimitOffset]
  rcases Nat.eq_zero_or_pos o with h0 | hpos'
  · subst h0
    simp [Int.le_of_lt hpos]
  · have : (0 : Int) < (o : Int) := by exact_mod_cast hpos'
    simp [this, Int.le_of_lt hpos]

theorem listedTweets_page (db : CuratorDb) (p : ListParams) (s : String)
    (i : Nat) (L : Int) (hL : parseIntJS p.limit = some L) (hpos : 0 < L)
    (hs : parseIntJS s = some ((i : Int) + 1)) :
    listedTweets db { p with page := s }
      = ((orderedTweets db p).drop (i * L.toNat)).take L.toNat := by
  have hL' : ((L.toNat : Int)) = L := Int.toNat_of_nonneg (Int.le_of_lt hpos)
  have hoff : ((i : Int) + 1 - 1) * L = ((i * L.toNat : Nat) : Int) := by
    have h1 : ((i : Int) + 1 - 1) * L = (i : Int) * L := by ring
    rw [h1, ← hL']
    exact (Nat.cast_mul i L.toNat).symm
  have hpq : parseIntJS ({ p with page := s } : ListParams).page
      = some ((i : Int) + 1) := hs
  have hlq : parseIntJS ({ p with page := s } : ListParams).limit = some L := hL
  have hlist : listTweets db { p with page := s }
      = Except.ok
        { tweets := applyLimitOffset (orderedTweets db { p with page := s }) L
            (((i : Int) + 1 - 1) * L)
          page := (i : Int) + 1
          limit := L
          total := countTotal db { p with page := s }
          totalPages := totalPagesJS (countTotal db { p with page := s }) L } := by
    unfold listTweets
    rw [hpq, hlq]
  rw [listedTweets, hlist]
  show applyLimitOffset (orderedTweets db { p with page := s }) L
      (((i : Int) + 1 - 1) * L) = _
  have hord : orderedTweets db { p with page := s } = orderedTweets db p := rfl
  rw [hord, hoff, applyLimitOffset_nat _ L hpos]

theorem stringMk_toList (s : String) : String.mk s.toList = s := rfl

theorem eq_empty_of_toList_eq_nil {s : String} (h : s.toList = []) : s = "" :=
  congrArg String.mk h

theorem keepWord_false_of_short_or_stop (w : String)
    (h : w.length < 2 ∨ stopWords.contains (lowerStr w) = true) :
    keepWord w = false := by
  rcases h with h | h
  · have hlt : ¬ (2 ≤ w.length) := by omega
    simp [keepWord, hlt]
  · have hmem : lowerStr w ∈ stopWords := (contains_true_iff_mem _ _).mp h
    simp [keepWord, hmem]

/-- C6: the stemmer's vocabulary postconditions: `stem "running" = "run"`,
`stem "studies" = "study"`, `stem "children" = "child"`, `stem "cats" =
"cat"`, `stem "happiness" = "happi"` (the `-ness` suffix stripped), and
every input shorter than 3 characters is returned unchanged apart from
lowercasing (`stem "a" = "a"`, `stem "of" = "of"`). -/
theorem stem_vocabulary_postconditions :
    stem "running" = "run" ∧ stem "studies" = "study" ∧ stem "children" = "child"
    ∧ stem "cats" = "cat" ∧ stem "happiness" = "happi"
    ∧ stem "a" = "a" ∧ stem "of" = "of"
    ∧ (∀ w : String, w.length < 3 → stem w = lowerStr w) := by
  refine ⟨by decide, by decide, by decide, by decide, by decide, by decide, by decide, ?_⟩
  intro w h
  unfold stem
  rw [if_pos h]

/-- Witness for C6: the length-floor rule applied at the concrete input
`"ab"`. -/
theorem stem_vocabulary_postconditions_witness :
    ("ab" : String).length < 3 ∧ stem "ab" = lowerStr "ab" :=
  ⟨by decide, stem_vocabulary_postconditions.2.2.2.2.2.2.2 "ab" (by decide)⟩

/-- C5: word-token predicate construction: a word token's clause is
word-OR-stem exactly when the stem differs from the lowercased word and has
length at least 3 (two parameters, word first then stem), and the single
word-containment clause otherwise (one parameter); the parameter list of a
query is the in-order concatenation of its clauses' parameters; and for a
nonempty query the free-text filter passes iff every individual token clause
matches. -/
theorem word_clause_construction_and_conjunction :
    (∀ q : String,
      (parseSearchQuery q).2 = (((parseSearchQuery q).1).map clauseParams).flatten)
    ∧ (∀ v : String,
        tokenClause (SearchToken.word v)
          = if lowerStr v ≠ stem (lowerStr v) ∧ 3 ≤ (stem (lowerStr v)).length
            then SqlLikeClause.containsEither (lowerStr v) (stem (lowerStr v))
            else SqlLikeClause.contains (lowerStr v))
    ∧ (∀ v : String,
        clauseParams (tokenClause (SearchToken.word v))
          = if lowerStr v ≠ stem (lowerStr v) ∧ 3 ≤ (stem (lowerStr v)).length
            then [lowerStr v, stem (lowerStr v)]
            else [lowerStr v])
    ∧ (∀ q text : String, q ≠ "" →
        (searchPasses q text = true ↔
          ∀ c ∈ (parseSearchQuery q).1, clauseMatches c text = true)) := by
  refine ⟨?_, ?_, ?_, ?_⟩
  · intro q
    rw [parseSearchQuery_eq]
  · intro v
    rfl
  · intro v
    show clauseParams
        (if lowerStr v ≠ stem (lowerStr v) ∧ 3 ≤ (stem (lowerStr v)).length
         then SqlLikeClause.containsEither (lowerStr v) (stem (lowerStr v))
         else SqlLikeClause.contains (lowerStr v)) = _
    split <;> rfl
  · intro q text hq
    unfold searchPasses
    rw [if_neg hq]
    exact List.all_eq_true

/-- Witness for C5: the parameter flattening and the AND property at the
concrete query `"running cats"` against the text `"the cat ran fast"`. -/
theorem word_clause_construction_and_conjunction_witness :
    (parseSearchQuery "running cats").2
        = (((parseSearchQuery "running cats").1).map clauseParams).flatten
    ∧ (searchPasses "running cats" "the cat ran fast" = true ↔
        ∀ c ∈ (parseSearchQuery "running cats").1,
          clauseMatches c "the cat ran fast" = true) :=
  ⟨word_clause_construction_and_conjunction.1 "running cats",
   word_clause_construction_and_conjunction.2.2.2 "running cats" "the cat ran fast"
     (by decide)⟩

/-- C8: a search string with no quoted phrase all of whose
whitespace-separated words are stop words or shorter than 2 characters
produces zero predicate clauses, and the listing behaves exactly as for an
empty search (no free-text restriction; in particular not zero results). -/
theorem stopword_only_search_is_unrestricted
    (q : String)
    (hnophrase : (scanPhrases q.toList none).1 = [])
    (hwords : ∀ w ∈ splitWords q.toList,
        w.length < 2 ∨ stopWords.contains (lowerStr w) = true) :
    (parseSearchQuery q).1 = []
    ∧ ∀ (db : CuratorDb) (p : ListParams),
        listTweets db { p with search := q } = listTweets db { p with search := "" } := by
  have hrem : (scanPhrases q.toList none).2 = q.toList :=
    scanPhrases_none_fst_nil _ hnophrase
  have hfil : (splitWords q.toList).filter keepWord = [] := by
    rw [List.filter_eq_nil_iff]
    intro w hw
    simp [keepWord_false_of_short_or_stop w (hwords w hw)]
  have htok : tokenize q = [] := by
    show (scanPhrases q.toList none).1.map SearchToken.phrase
        ++ ((splitWords (scanPhrases q.toList none).2).filter keepWord).map
            SearchToken.word = []
    rw [hnophrase, hrem, hfil]
    rfl
  have hcls : (parseSearchQuery q).1 = [] := by
    rw [parseSearchQuery_eq, htok]
    rfl
  exact ⟨hcls, fun db p =>
    listTweets_search_noop db p q (fun text => searchPasses_of_no_clauses q hcls text)⟩

/-- Witness for C8 at the concrete query `"of the it is"`: zero clauses,
and the listing over a one-tweet store equals the empty-search listing
(returning that tweet, not zero results). -/
theorem stopword_only_search_is_unrestricted_witness :
    (parseSearchQuery "of the it is").1 = []
    ∧ listTweets
        { tweets := [{ id := "w1", full_text := "hello world", tweet_type := "text_only",
                       length_category := "short", swipe_status := none,
                       is_reviewed := false, in_reply_to_tweet_id := none,
                       quoted_tweet_id := none, created_at := 1, favorite_count := 0,
                       retweet_count := 0, char_count := 11, ai_quality_score := 0 }],
          taggings := [] }
        { defaultListParams with search := "of the it is" }
        = listTweets
        { tweets := [{ id := "w1", full_text := "hello world", tweet_type := "text_only",
                       length_category := "short", swipe_status := none,
                       is_reviewed := false, in_reply_to_tweet_id := none,
                       quoted_tweet_id := none, created_at := 1, favorite_count := 0,
                       retweet_count := 0, char_count := 11, ai_quality_score := 0 }],
          taggings := [] }
        { defaultListParams with search := "" } := by
  have h := stopword_only_search_is_unrestricted "of the it is" (by decide) (by decide)
  exact ⟨h.1, h.2 _ defaultListParams⟩

/-- C10: a quoted phrase bypasses the stop-word and minimum-length filters:
for a nonempty quote-free whitespace-free `s` that is a stop word or shorter
than 2 characters, the query `"s"` yields exactly one mandatory
case-insensitive containment clause (so an entry is listed iff it passes the
other filters and its text contains `s`), whereas the same text unquoted
yields zero clauses and the listing behaves as for an empty search. -/
theorem quoted_stopword_phrase_is_mandatory
    (s : String) (hne : s ≠ "")
    (hchars : ∀ c ∈ s.toList, c ≠ '"' ∧ c.isWhitespace = false)
    (hshort : s.length < 2 ∨ stopWords.contains (lowerStr s) = true) :
    (parseSearchQuery (quoteWrap s)).1 = [SqlLikeClause.contains (lowerStr s)]
    ∧ (parseSearchQuery s).1 = []
    ∧ (∀ (db : CuratorDb) (p : ListParams) (t : Tweet),
        t ∈ filteredTweets db { p with search := quoteWrap s }
          ↔ (t ∈ filteredTweets db { p with search := "" }
              ∧ likeContains (lowerStr s) (lowerStr t.full_text) = true))
    ∧ (∀ (db : CuratorDb) (p : ListParams),
        listTweets db { p with search := s } = listTweets db { p with search := "" }) := by
  have hnil : s.toList ≠ [] := fun hc => hne (eq_empty_of_toList_eq_nil hc)
  have hnq : ∀ c ∈ s.toList, c ≠ '"' := fun c hc => (hchars c hc).1
  have hscan : scanPhrases (quoteWrap s).toList none = ([s], [' ']) := by
    show scanPhrases ('"' :: (s.toList ++ '"' :: [])) none = _
    have h1 : scanPhrases ('"' :: (s.toList ++ '"' :: [])) none
        = scanPhrases (s.toList ++ '"' :: []) (some []) := by
      simp [scanPhrases]
    rw [h1, scanPhrases_quoted s.toList [] [] hnq (by simpa using hnil)]
    simp [scanPhrases, stringMk_toList]
  have htokq : tokenize (quoteWrap s) = [SearchToken.phrase s] := by
    show (scanPhrases (quoteWrap s).toList none).1.map SearchToken.phrase
        ++ ((splitWords (scanPhrases (quoteWrap s).toList none).2).filter keepWord).map
            SearchToken.word = _
    rw [hscan]
    rfl
  have hclsq : (parseSearchQuery (quoteWrap s)).1 = [SqlLikeClause.contains (lowerStr s)] := by
    rw [parseSearchQuery_eq, htokq]
    rfl
  have htoks : tokenize s = [] := by
    show (scanPhrases s.toList none).1.map SearchToken.phrase
        ++ ((splitWords (scanPhrases s.toList none).2).filter keepWord).map
            SearchToken.word = _
    rw [scanPhrases_no_quote s.toList hnq]
    have hsw : splitWords s.toList = [String.mk s.toList] :=
      splitWords_single s.toList hnil (fun c hc => (hchars c hc).2)
    rw [hsw, stringMk_toList]
    simp [keepWord_false_of_short_or_stop s hshort]
  have hclss : (parseSearchQuery s).1 = [] := by
    rw [parseSearchQuery_eq, htoks]
    rfl
  have hqwne : quoteWrap s ≠ "" := by
    intro hc
    have := congrArg String.toList hc
    simp [quoteWrap] at this
  have hpass : ∀ text, searchPasses (quoteWrap s) text
      = likeContains (lowerStr s) (lowerStr text) := by
    intro text
    unfold searchPasses
    rw [if_neg hqwne, hclsq]
    simp [clauseMatches]
  refine ⟨hclsq, hclss, ?_, ?_⟩
  · intro db p t
    have hrow : rowPasses db { p with search := quoteWrap s } t
        = (likeContains (lowerStr s) (lowerStr t.full_text)
            && rowPasses db { p with search := "" } t) := by
      rw [rowPasses_factor_search]
      show (searchPasses (quoteWrap s) t.full_text && _) = _
      rw [hpass]
    simp only [filteredTweets, List.mem_filter, hrow, Bool.and_eq_true]
    tauto
  · intro db p
    exact listTweets_search_noop db p s
      (fun text => searchPasses_of_no_clauses s hclss text)

/-- Witness for C10 at the concrete stop word `"a"`: quoted it yields one
containment clause, unquoted it yields none. -/
theorem quoted_stopword_phrase_is_mandatory_witness :
    (parseSearchQuery (quoteWrap "a")).1 = [SqlLikeClause.contains (lowerStr "a")]
    ∧ (parseSearchQuery "a").1 = [] := by
  have h := quoted_stopword_phrase_is_mandatory "a" (by decide) (by decide) (by decide)
  exact ⟨h.1, h.2.1⟩

/-- C1: multi-tag AND semantics: when more than one tag name is requested,
an entry is listed iff it passes the row-level filters and the number of
distinct requested tag names attached to it equals the number of tag names
requested, and the count query counts exactly the listed entries. -/
theorem multi_tag_and_semantics
    (db : CuratorDb) (p : ListParams) (t : Tweet)
    (hmulti : 1 < (tagList p.tag).length) :
    (t ∈ filteredTweets db p ↔
      (t ∈ db.tweets ∧ whereOk db p t = true ∧
        ((tagList p.tag).dedup.filter
            (fun n => db.taggings.contains (t.id, n))).length = (tagList p.tag).length))
    ∧ countTotal db p = (filteredTweets db p).length := by
  have hne : ¬ (tagList p.tag).isEmpty = true := by
    rw [List.isEmpty_iff]
    intro hc
    rw [hc] at hmulti
    simp at hmulti
  constructor
  · rw [filteredTweets, List.mem_filter]
    constructor
    · rintro ⟨hmem, hpass⟩
      rw [rowPasses, Bool.and_eq_true] at hpass
      obtain ⟨hw, htag⟩ := hpass
      rw [tagOk, if_neg hne, beq_iff_eq, matchedTagCount_eq_distinct] at htag
      exact ⟨hmem, hw, htag⟩
    · rintro ⟨hmem, hw, hcount⟩
      refine ⟨hmem, ?_⟩
      rw [rowPasses, Bool.and_eq_true]
      refine ⟨hw, ?_⟩
      rw [tagOk, if_neg hne, beq_iff_eq, matchedTagCount_eq_distinct]
      exact hcount
  · rw [countTotal, if_neg hne, filteredTweets, List.filter_filter]
    apply congrArg
    apply List.filter_congr
    intro x _
    rw [rowPasses, tagOk, if_neg hne, Bool.and_comm]

/-- Witness for C1: with tags {A,B,C} requested, the entry tagged {A,B} is
not listed (2 of 3 matched); with {A,B} requested, the entry tagged {A,B,C}
is listed. -/
theorem multi_tag_and_semantics_witness :
    ((exTweetAB ∈ filteredTweets exTagDb { defaultListParams with tag := "A,B,C" } ↔
        (exTweetAB ∈ exTagDb.tweets
          ∧ whereOk exTagDb { defaultListParams with tag := "A,B,C" } exTweetAB = true
          ∧ ((tagList "A,B,C").dedup.filter
                (fun n => exTagDb.taggings.contains (exTweetAB.id, n))).length
              = (tagList "A,B,C").length))
      ∧ countTotal exTagDb { defaultListParams with tag := "A,B,C" }
          = (filteredTweets exTagDb { defaultListParams with tag := "A,B,C" }).length)
    ∧ exTweetAB ∉ filteredTweets exTagDb { defaultListParams with tag := "A,B,C" }
    ∧ exTweetABC ∈ filteredTweets exTagDb { defaultListParams with tag := "A,B" } :=
  ⟨multi_tag_and_semantics exTagDb { defaultListParams with tag := "A,B,C" } exTweetAB
      (by decide),
   by decide, by decide⟩

/-- C9: a tag filter repeating a tag name (e.g. `tag=A,A`) demands a
distinct-matched-name count equal to the duplicated list length, which no
entry can reach, so the listing returns no entries and total 0 regardless of
the stored tags. -/
theorem duplicated_tag_filter_returns_nothing
    (db : CuratorDb) (p : ListParams) (hdup : ¬ (tagList p.tag).Nodup) :
    filteredTweets db p = [] ∧ countTotal db p = 0
    ∧ ∀ r, listTweets db p = Except.ok r → (r.tweets = [] ∧ r.total = 0) := by
  have hne : ¬ (tagList p.tag).isEmpty = true := by
    rw [List.isEmpty_iff]
    intro hc
    rw [hc] at hdup
    exact hdup List.nodup_nil
  have hlt : (tagList p.tag).dedup.length < (tagList p.tag).length := by
    have hle : (tagList p.tag).dedup.length ≤ (tagList p.tag).length :=
      (List.dedup_sublist _).length_le
    by_contra hcon
    have heq : (tagList p.tag).dedup.length = (tagList p.tag).length := by omega
    have hself := (List.dedup_sublist (tagList p.tag)).eq_of_length heq
    rw [List.dedup_eq_self] at hself
    exact hdup hself
  have hcount : ∀ t : Tweet,
      ¬ (matchedTagCount db (tagList p.tag) t = (tagList p.tag).length) := by
    intro t hceq
    have hb : matchedTagCount db (tagList p.tag) t ≤ (tagList p.tag).dedup.length := by
      rw [matchedTagCount_eq_distinct]
      exact List.length_filter_le _ _
    omega
  have htagOk : ∀ t, tagOk db p t = false := by
    intro t
    rw [tagOk, if_neg hne]
    exact beq_eq_false_iff_ne.mpr (hcount t)
  have hfil : filteredTweets db p = [] := by
    rw [filteredTweets, List.filter_eq_nil_iff]
    intro t _
    simp [rowPasses, htagOk t]
  have hcnt : countTotal db p = 0 := by
    rw [countTotal, if_neg hne]
    simp only [List.length_eq_zero, List.filter_eq_nil_iff]
    intro t _
    simp [hcount t]
  have hord : orderedTweets db p = [] := by
    unfold orderedTweets
    rw [hfil]
    rfl
  refine ⟨hfil, hcnt, ?_⟩
  intro r hr
  unfold listTweets at hr
  rcases hp : parseIntJS p.page with _ | pg
  · rw [hp] at hr
    simp at hr
  · rcases hl : parseIntJS p.limit with _ | lim
    · rw [hp, hl] at hr
      simp at hr
    · rw [hp, hl] at hr
      simp only [Except.ok.injEq] at hr
      rw [← hr]
      constructor
      · show applyLimitOffset (orderedTweets db p) lim ((pg - 1) * lim) = []
        rw [hord, applyLimitOffset]
        split <;> simp
      · exact hcnt

theorem duplicated_tag_filter_returns_nothing_witness :
    filteredTweets exTagDb { defaultListParams with tag := "A,A" } = []
    ∧ countTotal exTagDb { defaultListParams with tag := "A,A" } = 0
    ∧ ∀ r, listTweets exTagDb { defaultListParams with tag := "A,A" } = Except.ok r →
        (r.tweets = [] ∧ r.total = 0) :=
  duplicated_tag_filter_returns_nothing exTagDb { defaultListParams with tag := "A,A" }
    (by decide)

theorem parentExists_false_of_unresolvable (db : CuratorDb) (t : Tweet)
    (h : ∀ par ∈ db.tweets, t.in_reply_to_tweet_id ≠ some par.id) :
    parentExists db t = false := by
  rw [parentExists, List.any_eq_false]
  intro par hpar hc
  rw [beq_iff_eq] at hc
  exact h par hpar hc.symm

theorem parentExists_false_of_none (db : CuratorDb) (t : Tweet)
    (h : t.in_reply_to_tweet_id = none) : parentExists db t = false := by
  rw [parentExists, List.any_eq_false]
  intro par hpar
  simp [h]

theorem structuredOk_thread_neutral (db : CuratorDb) (p : ListParams) (t : Tweet)
    (hkind : t.tweet_type = "thread")
    (htype : p.type = "") (hlen : p.length = "") (hswipe : p.swipe = "")
    (hrev : p.reviewed = "")
    (hex : p.excludeThreads ≠ "true" ∨ t.in_reply_to_tweet_id = none) :
    structuredOk db p t = true := by
  rw [structuredOk, htype, hlen, hswipe, hrev, hkind]
  rcases hex with hex | hex
  · simp [hex]
  · simp [hex]

/-- Counterexample for C3 as stated: the inclusion half is not independent
of the excludeThreads toggle — with `excludeThreads=true` a thread-kind
entry whose parent-reply id resolves to no stored entry is nevertheless
excluded. -/
theorem thread_hiding_not_toggle_independent :
    exDanglingTweet ∈ exDanglingDb.tweets
    ∧ exDanglingTweet.tweet_type = "thread"
    ∧ (∀ par ∈ exDanglingDb.tweets, exDanglingTweet.in_reply_to_tweet_id ≠ some par.id)
    ∧ exDanglingTweet ∉ filteredTweets exDanglingDb
        { defaultListParams with excludeThreads := "true" } := by
  decide

/-- C3 amended: the unconditional hiding rule excludes, from every listing,
thread-kind entries whose parent-reply id resolves to a stored entry; a
thread-kind entry with absent or unresolvable parent is included whenever
the excludeThreads toggle is not "true" and the remaining filters are
neutral. -/
theorem thread_continuation_hiding_amended
    (db : CuratorDb) (p : ListParams) (t : Tweet)
    (ht : t ∈ db.tweets) (hkind : t.tweet_type = "thread") :
    ((∃ par, par ∈ db.tweets ∧ t.in_reply_to_tweet_id = some par.id) →
        t ∉ filteredTweets db p)
    ∧ ((∀ par ∈ db.tweets, t.in_reply_to_tweet_id ≠ some par.id) →
        p.excludeThreads ≠ "true" →
        p.search = "" → p.type = "" → p.length = "" → p.swipe = "" →
        p.reviewed = "" → p.tag = "" →
        t ∈ filteredTweets db p) := by
  constructor
  · rintro ⟨par, hpar, hrep⟩ hmem
    rw [filteredTweets, List.mem_filter] at hmem
    obtain ⟨-, hpass⟩ := hmem
    have hpe : parentExists db t = true := by
      rw [parentExists, List.any_eq_true]
      exact ⟨par, hpar, by simp [hrep]⟩
    rw [rowPasses, whereOk, hkind, hpe] at hpass
    simp at hpass
  · intro hunres hex hsearch htype hlen hswipe hrev htag
    rw [filteredTweets, List.mem_filter]
    refine ⟨ht, ?_⟩
    have hpe := parentExists_false_of_unresolvable db t hunres
    have hs := structuredOk_thread_neutral db p t hkind htype hlen hswipe hrev (Or.inl hex)
    have htl : (tagList "").isEmpty = true := by decide
    rw [rowPasses, whereOk, hkind, hpe, hsearch, hs]
    simp [tagOk, htag, htl, searchPasses_empty]

/-- Witness for C3 amended: the continuation whose parent exists is hidden
from the default listing, and the starter with no resolvable parent is
listed. -/
theorem thread_continuation_hiding_amended_witness :
    exChildTweet ∉ filteredTweets exChainDb defaultListParams
    ∧ exStarterTweet ∈ filteredTweets exStarterDb defaultListParams :=
  ⟨(thread_continuation_hiding_amended exChainDb defaultListParams exChildTweet
      (by decide) (by decide)).1 ⟨exParentTweet, by decide, by decide⟩,
   (thread_continuation_hiding_amended exStarterDb defaultListParams exStarterTweet
      (by decide) (by decide)).2 (by decide) (by decide) rfl rfl rfl rfl rfl rfl⟩

/-- C4: with excludeThreads="true", thread-kind entries with a parent-reply
id set are excluded while thread starters (thread kind, no parent-reply id)
remain included when the remaining filters are neutral. -/
theorem exclude_threads_keeps_starters
    (db : CuratorDb) (p : ListParams) (t : Tweet)
    (hex : p.excludeThreads = "true") (ht : t ∈ db.tweets)
    (hkind : t.tweet_type = "thread") :
    ((∃ rid, t.in_reply_to_tweet_id = some rid) → t ∉ filteredTweets db p)
    ∧ (t.in_reply_to_tweet_id = none →
        p.search = "" → p.type = "" → p.length = "" → p.swipe = "" →
        p.reviewed = "" → p.tag = "" →
        t ∈ filteredTweets db p) := by
  constructor
  · rintro ⟨rid, hrid⟩ hmem
    rw [filteredTweets, List.mem_filter] at hmem
    obtain ⟨-, hpass⟩ := hmem
    have hbeq : ((some rid == (none : Option String))) = false := rfl
    rw [rowPasses, whereOk, structuredOk, hex, hkind, hrid] at hpass
    simp [hbeq] at hpass
  · intro hnone hsearch htype hlen hswipe hrev htag
    rw [filteredTweets, List.mem_filter]
    refine ⟨ht, ?_⟩
    have hpe := parentExists_false_of_none db t hnone
    have hs := structuredOk_thread_neutral db p t hkind htype hlen hswipe hrev
      (Or.inr hnone)
    have htl : (tagList "").isEmpty = true := by decide
    rw [rowPasses, whereOk, hkind, hpe, hsearch, hs]
    simp [tagOk, htag, htl, searchPasses_empty]

/-- Witness for C4: under excludeThreads="true" the continuation with a
parent id is removed and the starter remains listed. -/
theorem exclude_threads_keeps_starters_witness :
    exChildTweet ∉ filteredTweets exChainDb
        { defaultListParams with excludeThreads := "true" }
    ∧ exStarterTweet ∈ filteredTweets exStarterDb
        { defaultListParams with excludeThreads := "true" } :=
  ⟨(exclude_threads_keeps_starters exChainDb
      { defaultListParams with excludeThreads := "true" } exChildTweet rfl
      (by decide) (by decide)).1 ⟨"p1", rfl⟩,
   (exclude_threads_keeps_starters exStarterDb
      { defaultListParams with excludeThreads := "true" } exStarterTweet rfl
      (by decide) (by decide)).2 rfl rfl rfl rfl rfl rfl rfl⟩

/-- C2: count/list pagination agreement: for a positive parsed limit, the
count query's total equals the number of distinct entries satisfying the
composed filter, `totalPages` is the exact ceiling of total over the limit,
and the pages 1..totalPages concatenate to exactly the ordered filtered
entries, so the page lengths sum to total. -/
theorem count_list_pagination_agreement
    (db : CuratorDb) (p : ListParams) (pg : Nat → String) (L : Int)
    (hL : parseIntJS p.limit = some L) (hpos : 0 < L)
    (hids : (db.tweets.map Tweet.id).Nodup)
    (hpg : ∀ i, i < (countTotal db p + L.toNat - 1) / L.toNat →
        parseIntJS (pg i) = some ((i : Int) + 1)) :
    countTotal db p = (filteredTweets db p).length
    ∧ totalPagesJS (countTotal db p) L
        = some (((countTotal db p + L.toNat - 1) / L.toNat : Nat) : Int)
    ∧ ((List.range ((countTotal db p + L.toNat - 1) / L.toNat)).map
          (fun i => listedTweets db { p with page := pg i })).flatten
        = orderedTweets db p
    ∧ ((List.range ((countTotal db p + L.toNat - 1) / L.toNat)).map
          (fun i => (listedTweets db { p with page := pg i }).length)).sum
        = countTotal db p := by
  have hKpos : 0 < L.toNat := by omega
  have hcf := countTotal_eq_length_filtered db p hids
  have hlenord : (orderedTweets db p).length = countTotal db p := by
    rw [length_orderedTweets, hcf]
  have hchunk : ∀ i ∈ List.range ((countTotal db p + L.toNat - 1) / L.toNat),
      listedTweets db { p with page := pg i }
        = ((orderedTweets db p).drop (i * L.toNat)).take L.toNat := by
    intro i hi
    exact listedTweets_page db p (pg i) i L hL hpos (hpg i (List.mem_range.mp hi))
  have hmapeq : (List.range ((countTotal db p + L.toNat - 1) / L.toNat)).map
        (fun i => listedTweets db { p with page := pg i })
      = (List.range ((countTotal db p + L.toNat - 1) / L.toNat)).map
        (fun i => ((orderedTweets db p).drop (i * L.toNat)).take L.toNat) :=
    List.map_congr_left hchunk
  have hbound : (orderedTweets db p).length
      ≤ ((countTotal db p + L.toNat - 1) / L.toNat) * L.toNat := by
    rw [hlenord]
    exact le_ceil_mul (countTotal db p) L.toNat hKpos
  have hflat : ((List.range ((countTotal db p + L.toNat - 1) / L.toNat)).map
      (fun i => listedTweets db { p with page := pg i })).flatten
      = orderedTweets db p := by
    rw [hmapeq]
    exact flatten_chunks L.toNat hKpos _ (orderedTweets db p) hbound
  refine ⟨hcf, ?_, hflat, ?_⟩
  · rw [totalPagesJS, if_pos hpos]
  · have hlen := congrArg List.length hflat
    rw [List.length_flatten, List.map_map] at hlen
    rw [hlenord] at hlen
    simpa [Function.comp] using hlen

/-- Witness for C2: three entries, page size 2, two pages concatenating to
the whole ordered listing with lengths summing to the total of 3. -/
theorem count_list_pagination_agreement_witness :
    countTotal exPagDb exPagP = (filteredTweets exPagDb exPagP).length
    ∧ totalPagesJS (countTotal exPagDb exPagP) 2
        = some (((countTotal exPagDb exPagP + (2 : Int).toNat - 1) / (2 : Int).toNat : Nat) : Int)
    ∧ ((List.range ((countTotal exPagDb exPagP + (2 : Int).toNat - 1) / (2 : Int).toNat)).map
          (fun i => listedTweets exPagDb { exPagP with page := exPagPg i })).flatten
        = orderedTweets exPagDb exPagP
    ∧ ((List.range ((countTotal exPagDb exPagP + (2 : Int).toNat - 1) / (2 : Int).toNat)).map
          (fun i => (listedTweets exPagDb { exPagP with page := exPagPg i }).length)).sum
        = countTotal exPagDb exPagP :=
  count_list_pagination_agreement exPagDb exPagP exPagPg 2 (by decide) (by decide)
    (by decide) (by decide)

theorem listedTweets_eval (db : CuratorDb) (p : ListParams) (pgn L : Int)
    (hp : parseIntJS p.page = some pgn) (hL : parseIntJS p.limit = some L) :
    listedTweets db p = applyLimitOffset (orderedTweets db p) L ((pgn - 1) * L) := by
  unfold listedTweets listTweets
  rw [hp, hL]

theorem applyLimitOffset_nonpos (rows : List Tweet) (L off : Int) (h : off ≤ 0) :
    applyLimitOffset rows L off = if 0 ≤ L then rows.take L.toNat else rows := by
  have hno : ¬ (0 < off) := by omega
  simp only [applyLimitOffset, if_neg hno]

/-- Counterexample for C7 as stated: a non-parseable limit surfaces a
datatype-mismatch error (no local recovery), and a non-positive limit of 0
returns no entries instead of a default-sized page (the same store lists its
entry under the default limit). -/
theorem numeric_input_policy_counterexample :
    listTweets exLimDb { defaultListParams with limit := "abc" }
        = Except.error "datatype mismatch"
    ∧ listedTweets exLimDb { defaultListParams with limit := "0" } = []
    ∧ listedTweets exLimDb defaultListParams = [exLimTweet] := by
  refine ⟨rfl, rfl, rfl⟩

/-- C7 amended: a parsed non-positive page yields the same entries as page 1
(the non-positive offset is clamped by the storage layer) with no error,
while a page or limit that fails to parse is bound as SQL NULL and the page
query fails with the surfaced datatype-mismatch error; no defaulting to
page 1 / the fixed page size takes place. -/
theorem numeric_input_policy_amended (db : CuratorDb) (p : ListParams) :
    (∀ n : Int, parseIntJS p.page = some n → n ≤ 0 →
      ∀ L : Int, parseIntJS p.limit = some L → 0 ≤ L →
        listedTweets db p = listedTweets db { p with page := "1" })
    ∧ (parseIntJS p.page = none ∨ parseIntJS p.limit = none →
        listTweets db p = Except.error "datatype mismatch") := by
  constructor
  · intro n hp hn L hL hLnn
    have hoff : (n - 1) * L ≤ 0 := by nlinarith
    have h1 := listedTweets_eval db p n L hp hL
    have hp1 : parseIntJS ({ p with page := "1" } : ListParams).page = some 1 := rfl
    have hL1 : parseIntJS ({ p with page := "1" } : ListParams).limit = some L := hL
    have h2 := listedTweets_eval db { p with page := "1" } 1 L hp1 hL1
    have hord : orderedTweets db { p with page := "1" } = orderedTweets db p := rfl
    rw [h1, h2, hord, applyLimitOffset_nonpos _ _ _ hoff,
      applyLimitOffset_nonpos _ _ _ (by omega)]
  · rintro (h | h)
    · unfold listTweets
      rw [h]
    · rcases hpp : parseIntJS p.page with _ | pgn
      · unfold listTweets
        rw [hpp]
      · unfold listTweets
        rw [hpp, h]

/-- Witness for C7 amended: page "0" lists the same entries as page "1", and
page "abc" produces the surfaced error. -/
theorem numeric_input_policy_amended_witness :
    listedTweets exLimDb { defaultListParams with page := "0" }
        = listedTweets exLimDb { defaultListParams with page := "1" }
    ∧ listTweets exLimDb { defaultListParams with page := "abc" }
        = Except.error "datatype mismatch" :=
  ⟨(numeric_input_policy_amended exLimDb { defaultListParams with page := "0" }).1
      0 (by decide) (by decide) 50 (by decide) (by decide),
   (numeric_input_policy_amended exLimDb { defaultListParams with page := "abc" }).2
      (Or.inl (by decide))⟩
